import Mathlib

/-!
Verification development for the UserForm composition and modal
data-collection operations of `mcp-msoffice-interop-word`.

The embedding covers `createUserForm`, `addControlToUserForm`,
`createFormWithControls`, `showUserForm`, `addStandardFormEventHandlers`
and `createShowUserFormModalFunction` from `src/word/word-service.ts`,
and the tool wrappers `showUserFormTool` / `createFormWithControlsTool`
from the ActiveX tool registration file.

The COM host (Word's VBE object model) is modelled as an explicit state:
a `VBProject` holding `VBComponent`s, each with a designer control list
and a code module.  Host behaviour that the TypeScript code relies on but
does not implement is modelled from the documented VBE semantics and is
marked in the doc comments: component names and control names are unique,
so assigning an already-used name raises; `Controls.Add` with an invalid
class id raises; a freshly added component or control carries a
host-chosen default name.  Numeric values (`number` in TypeScript) are
modelled as `Int`.
-/

/-- Value of a control property as observed from JavaScript through the
COM bridge: a string, a boolean, or null. -/
inductive JValue where
  | jstr (s : String)
  | jbool (b : Bool)
  | jnull
  deriving DecidableEq, Repr

/-- Outcome of reading one property (`Value`, `Text` or `Caption`) of a
live control after the modal dialog closed: the property may be absent
(JavaScript `undefined`), present with a value, or the read may raise in
the host surface. -/
inductive PropRead where
  | undef
  | val (v : JValue)
  | raise
  deriving DecidableEq, Repr

/-- Runtime view of one control at collection time (after `Show(1)`
returned): its `Name` and the outcomes of reading `Value`, `Text` and
`Caption`. -/
structure RtControl where
  name : String
  value : PropRead
  text : PropRead
  caption : PropRead
  deriving DecidableEq, Repr

/-- Embedding of the extraction loop of `showUserForm`
(word-service.ts:2262-2280) together with the surrounding try/catch:
for each control in order, the first defined property of
`Value`, `Text`, `Caption` is recorded under the control's name; a
control with none of the three defined contributes nothing; if a
property read raises, the catch around the whole loop stops collection
and the data gathered so far is returned. -/
def collectControls : List RtControl → List (String × JValue)
  | [] => []
  | c :: rest =>
    match c.value with
    | .raise => []
    | .val v => (c.name, v) :: collectControls rest
    | .undef =>
      match c.text with
      | .raise => []
      | .val v => (c.name, v) :: collectControls rest
      | .undef =>
        match c.caption with
        | .raise => []
        | .val v => (c.name, v) :: collectControls rest
        | .undef => collectControls rest

/-- Whether evaluating the extraction chain on this control raises in the
host surface (the properties are consulted in the order `Value`, `Text`,
`Caption`, stopping at the first defined one). -/
def readRaises (c : RtControl) : Bool :=
  match c.value with
  | .raise => true
  | .val _ => false
  | .undef =>
    match c.text with
    | .raise => true
    | .val _ => false
    | .undef =>
      match c.caption with
      | .raise => true
      | _ => false

/-- A control placed on a UserForm designer (name, caption and geometry,
as set by `addControlToUserForm`). -/
structure VBControl where
  name : String
  caption : String
  left : Int
  top : Int
  width : Int
  height : Int
  deriving DecidableEq, Repr

/-- A component of the VBA project: `ctype` is the COM component type
(3 = `vbext_ct_MSForm`, 1 = `vbext_ct_StdModule`), `controls` the
designer's control list, `code` the text of the component's code
module. -/
structure VBComponent where
  name : String
  ctype : Nat
  caption : String
  width : Int
  height : Int
  startUpPosition : Int
  controls : List VBControl
  code : String
  deriving DecidableEq, Repr

/-- The VBA project of the active document: the host state every
operation threads. -/
structure VBProject where
  components : List VBComponent
  deriving DecidableEq, Repr

/-- Embedding of `vbProject.VBComponents.Item(name)`: the first component
with the given name, if any (VBE component names are unique, so at most
one matches). -/
def findComponent (st : VBProject) (name : String) : Option VBComponent :=
  st.components.find? (fun c => c.name == name)

/-- Replace the component with the given name (host mutation of one
component of the project). -/
def updateComponent (st : VBProject) (name : String) (f : VBComponent → VBComponent) : VBProject :=
  ⟨st.components.map (fun c => if c.name == name then f c else c)⟩

/-- Modelled host behaviour: `VBComponents.Add` attaches a new component
under a host-chosen default name before the code renames it. -/
def defaultComponentName (st : VBProject) : String :=
  "UserForm" ++ toString (st.components.length + 1)

/-- Modelled host behaviour: `Controls.Add` attaches a new control under
a host-chosen default name (here indexed by the current control count)
with default geometry, before the code renames and positions it. -/
def defaultVBControl (n : Nat) : VBControl :=
  { name := "Control" ++ toString (n + 1), caption := "", left := 0, top := 0,
    width := 0, height := 0 }

/-- Modelled from the spec: the error taxonomy of section 7
(`ValidationError`, `DuplicateFormError`, `ControlCreationError`).  The
TypeScript source only ever constructs plain `new Error(message)`
values, embedded as `.generic`; the other constructors exist so that
claims phrased in terms of the spec's taxonomy can be stated. -/
inductive SpecError where
  | validationError (field : String)
  | duplicateFormError (formName : String)
  | controlCreationError (controlName : String)
  | generic (msg : String)
  deriving DecidableEq, Repr

/-- Message carried by an error value. -/
def SpecError.message : SpecError → String
  | .validationError f => f
  | .duplicateFormError f => f
  | .controlCreationError c => c
  | .generic m => m

/-- Whether a finished operation failed with the spec's
`ValidationError`. -/
def isValidationFailure : Except SpecError Unit × VBProject → Bool
  | (.error (.validationError _), _) => true
  | _ => false

/-- Whether a finished operation failed with the spec's
`DuplicateFormError`. -/
def isDuplicateFormFailure : Except SpecError Unit × VBProject → Bool
  | (.error (.duplicateFormError _), _) => true
  | _ => false

/-- Whether a finished operation failed at all. -/
def isFailure : Except SpecError Unit × VBProject → Bool
  | (.error _, _) => true
  | _ => false

/-- Modelled host behaviour: the message of the COM error raised when a
component is renamed to a name already used in the project. -/
def hostDupComponentName : String := "component name already in use"

/-- Modelled host behaviour: the message of the COM error raised when a
control is renamed to a name already used on the form. -/
def hostDupControlName : String := "control name already in use"

/-- Modelled host behaviour: the message of the COM error raised by
`Controls.Add` when the class id is `undefined` (the control type was
not in `controlClassMap`). -/
def hostInvalidClass : String := "invalid class string"

/-- Modelled host behaviour: the message of the COM error raised by
`VBComponents.Item` when no component has the requested name. -/
def hostNoSuchComponent : String := "subscript out of range"

/-- Error thrown by `createUserForm` (word-service.ts:1494). -/
def createUserFormErr (formName inner : String) : SpecError :=
  .generic ("Failed to create UserForm '" ++ formName ++ "'. Error: " ++ inner)

/-- Error thrown by `addControlToUserForm` (word-service.ts:1547). -/
def addControlErr (formName inner : String) : SpecError :=
  .generic ("Failed to add control to UserForm '" ++ formName ++ "'. Error: " ++ inner)

/-- Error thrown by `createFormWithControls` (word-service.ts:2721). -/
def createFormErr (formName inner : String) : SpecError :=
  .generic ("Failed to create form '" ++ formName ++ "'. Error: " ++ inner)

/-- Error thrown by `showUserForm` (word-service.ts:2285). -/
def showUserFormErr (formName inner : String) : SpecError :=
  .generic ("Failed to show UserForm '" ++ formName ++ "'. Error: " ++ inner)

/-- Error thrown by `addStandardFormEventHandlers` (word-service.ts:2645). -/
def eventHandlersErr (formName inner : String) : SpecError :=
  .generic ("Failed to add event handlers to form '" ++ formName ++ "'. Error: " ++ inner)

/-- The UserForm component as it stands after a successful
`createUserForm`: sizing clamped with `Math.max(width, 300)` and
`Math.max(height, 200)` (word-service.ts:1479-1480), caption set when
provided, `StartUpPosition = 1`, empty designer and code module. -/
def mkVBForm (formName : String) (caption : Option String) (width height : Int) : VBComponent :=
  { name := formName, ctype := 3, caption := caption.getD "",
    width := max width 300, height := max height 200,
    startUpPosition := 1, controls := [], code := "" }

/-- Embedding of `WordService.createUserForm` (word-service.ts:1459-1496).
`VBComponents.Add(3)` attaches a fresh component and `vbComponent.Name =
formName` then raises if the name is already used (modelled VBE
semantics); the catch rethrows a generic error, leaving the fresh
default-named component attached.  Otherwise caption and clamped size
are set on the designer. -/
def createUserForm (formName : String) (caption : Option String) (width height : Int)
    (st : VBProject) : Except SpecError Unit × VBProject :=
  let fresh : VBComponent :=
    { name := defaultComponentName st, ctype := 3, caption := "", width := 0, height := 0,
      startUpPosition := 0, controls := [], code := "" }
  if st.components.any (fun c => c.name == formName) then
    (.error (createUserFormErr formName hostDupComponentName), ⟨st.components ++ [fresh]⟩)
  else
    (.ok (), ⟨st.components ++ [mkVBForm formName caption width height]⟩)

/-- The VBA source text generated by `createShowUserFormModalFunction`
(word-service.ts:2434-2577): the `ShowUserFormModal` function, its
`CollectFormData` helper and the `AddOKCancelButtons` helper, reproduced
verbatim (braces written with escape codes). -/
def showUserFormModalVbaCode : String :=
  "
' ShowUserFormModal - Displays a UserForm modally and returns collected data
' Parameter: formName - Name of the UserForm to display
' Returns: JSON-like string with form data, or empty string if cancelled
Function ShowUserFormModal(formName As String) As String
    On Error GoTo ErrorHandler
    
    Dim formComponent As Object
    Dim userForm As Object
    Dim result As String
    Dim cancelled As Boolean
    
    ' Initialize result
    result = \"\"
    cancelled = False
    
    ' Get the UserForm by name
    Set formComponent = ThisDocument.VBProject.VBComponents(formName)
    
    If formComponent.Type <> 3 Then ' vbext_ct_MSForm
        MsgBox \"Error: '\" & formName & \"' is not a UserForm\", vbCritical
        ShowUserFormModal = \"\"
        Exit Function
    End If
    
    Set userForm = formComponent.Designer
    
    ' Add event handlers for OK/Cancel buttons if they exist
    ' This is handled by individual form design
    
    ' Show the form modally
    userForm.Show vbModal
    
    ' Check if form was cancelled (assuming a global variable or form property)
    ' For now, we'll assume if the form is hidden, data was submitted
    
    ' Collect data from all controls
    result = CollectFormData(userForm)
    
    ShowUserFormModal = result
    Exit Function
    
ErrorHandler:
    MsgBox \"Error displaying UserForm '\" & formName & \"': \" & Err.Description, vbCritical
    ShowUserFormModal = \"\"
End Function

' Helper function to collect data from UserForm controls
Private Function CollectFormData(userForm As Object) As String
    On Error GoTo ErrorHandler
    
    Dim i As Integer
    Dim control As Object
    Dim result As String
    Dim controlData As String
    
    result = \"\x7b\"
    
    ' Iterate through all controls
    For i = 0 To userForm.Controls.Count - 1
        Set control = userForm.Controls(i)
        controlData = \"\"
        
        ' Extract data based on control type
        Select Case TypeName(control)
            Case \"TextBox\"
                controlData = \"\"\" & control.Name & \"\":\"\" & control.Text & \"\"\"
            Case \"ComboBox\"
                controlData = \"\"\" & control.Name & \"\":\"\" & control.Text & \"\"\"
            Case \"CheckBox\"
                controlData = \"\"\" & control.Name & \"\":\" & IIf(control.Value, \"true\", \"false\")
            Case \"OptionButton\"
                controlData = \"\"\" & control.Name & \"\":\" & IIf(control.Value, \"true\", \"false\")
            Case \"ListBox\"
                If control.ListIndex >= 0 Then
                    controlData = \"\"\" & control.Name & \"\":\"\" & control.List(control.ListIndex) & \"\"\"
                Else
                    controlData = \"\"\" & control.Name & \"\":\"\"\"
                End If
            Case \"Label\"
                ' Skip labels as they don't contain user input
            Case \"CommandButton\"
                ' Skip buttons as they don't contain user input
            Case Else
                ' Try to get Value or Text property
                On Error Resume Next
                If Not IsEmpty(control.Value) Then
                    controlData = \"\"\" & control.Name & \"\":\"\" & control.Value & \"\"\"
                ElseIf control.Text <> \"\" Then
                    controlData = \"\"\" & control.Name & \"\":\"\" & control.Text & \"\"\"
                End If
                On Error GoTo ErrorHandler
        End Select
        
        ' Add to result if we have data
        If controlData <> \"\" Then
            If Len(result) > 1 Then result = result & \",\"
            result = result & controlData
        End If
    Next i
    
    result = result & \"\x7d\"
    CollectFormData = result
    Exit Function
    
ErrorHandler:
    CollectFormData = \"\x7b\x7d\"
End Function

' Helper function to create standard OK/Cancel buttons on a UserForm
Sub AddOKCancelButtons(userForm As Object)
    On Error GoTo ErrorHandler
    
    Dim btnOK As Object
    Dim btnCancel As Object
    
    ' Add OK button
    Set btnOK = userForm.Controls.Add(\"Forms.CommandButton.1\")
    With btnOK
        .Name = \"btnOK\"
        .Caption = \"OK\"
        .Left = userForm.Width - 160
        .Top = userForm.Height - 60
        .Width = 70
        .Height = 25
    End With
    
    ' Add Cancel button
    Set btnCancel = userForm.Controls.Add(\"Forms.CommandButton.1\")
    With btnCancel
        .Name = \"btnCancel\"
        .Caption = \"Cancel\"
        .Left = userForm.Width - 80
        .Top = userForm.Height - 60
        .Width = 70
        .Height = 25
    End With
    
    Exit Sub
    
ErrorHandler:
    ' Ignore errors in button creation
End Sub
"

/-- The VBA source text generated by `addStandardFormEventHandlers`
(word-service.ts:2612-2639): the private `cancelled` flag, the
`btnOK_Click` / `btnCancel_Click` handlers, the `UserForm_QueryClose`
handler and `WasCancelled`, reproduced verbatim. -/
def buttonCode : String :=
  "
Private cancelled As Boolean
Private formData As String

' Standard OK button handler
Private Sub btnOK_Click()
    cancelled = False
    Me.Hide
End Sub

' Standard Cancel button handler
Private Sub btnCancel_Click()
    cancelled = True
    Me.Hide
End Sub

' Handle form close (X button)
Private Sub UserForm_QueryClose(Cancel As Integer, CloseMode As Integer)
    If CloseMode = 0 Then ' User clicked X button
        cancelled = True
    End If
End Sub

' Helper function to check if form was cancelled
Public Function WasCancelled() As Boolean
    WasCancelled = cancelled
End Function
"

/-- Embedding of the `controlClassMap` record of `addControlToUserForm`
(word-service.ts:1520-1533); an unlisted control type yields `none`
(`undefined` in JavaScript). -/
def controlClassMap (controlType : String) : Option String :=
  if controlType == "commandButton" then some "Forms.CommandButton.1"
  else if controlType == "textBox" then some "Forms.TextBox.1"
  else if controlType == "label" then some "Forms.Label.1"
  else if controlType == "checkBox" then some "Forms.CheckBox.1"
  else if controlType == "optionButton" then some "Forms.OptionButton.1"
  else if controlType == "comboBox" then some "Forms.ComboBox.1"
  else if controlType == "listBox" then some "Forms.ListBox.1"
  else if controlType == "toggleButton" then some "Forms.ToggleButton.1"
  else if controlType == "spinButton" then some "Forms.SpinButton.1"
  else if controlType == "scrollBar" then some "Forms.ScrollBar.1"
  else if controlType == "image" then some "Forms.Image.1"
  else if controlType == "frame" then some "Forms.Frame.1"
  else none

/-- Embedding of `WordService.addControlToUserForm`
(word-service.ts:1501-1549).  The component is fetched by name (raises if
absent), its type checked, `Controls.Add(classId)` raises on an
`undefined` class id, and `control.Name = controlName` raises if the
name is already used on the form, leaving the freshly added
default-named control attached (modelled MSForms semantics); every
failure is rethrown as the generic wrapped error of the catch block.
Setting an empty caption is skipped by the source (`if (caption)`),
which has the same effect as storing the empty string. -/
def addControlToUserForm (formName controlType controlName caption : String)
    (left top width height : Int) (st : VBProject) : Except SpecError Unit × VBProject :=
  match findComponent st formName with
  | none => (.error (addControlErr formName hostNoSuchComponent), st)
  | some comp =>
    if comp.ctype ≠ 3 then
      (.error (addControlErr formName ("'" ++ formName ++ "' is not a UserForm")), st)
    else
      match controlClassMap controlType with
      | none => (.error (addControlErr formName hostInvalidClass), st)
      | some _classId =>
        if comp.controls.any (fun k => k.name == controlName) then
          (.error (addControlErr formName hostDupControlName),
           updateComponent st formName (fun c =>
             { c with controls := c.controls ++ [defaultVBControl c.controls.length] }))
        else
          (.ok (),
           updateComponent st formName (fun c =>
             { c with controls := c.controls ++
                 [{ name := controlName, caption := caption, left := left, top := top,
                    width := width, height := height }] }))

/-- Embedding of JavaScript `String.prototype.includes`: whether `pat`
occurs as a contiguous substring of `s`. -/
def occurs (pat s : String) : Bool :=
  s.toList.tails.any (fun t => pat.toList.isPrefixOf t)

/-- Embedding of `WordService.addStandardFormEventHandlers`
(word-service.ts:2593-2647): fetch the form component, check its type,
and append `buttonCode` to its code module unless the module already
contains `btnOK_Click`, in which case nothing is changed. -/
def addStandardFormEventHandlers (formName : String) (st : VBProject) :
    Except SpecError Unit × VBProject :=
  match findComponent st formName with
  | none => (.error (eventHandlersErr formName hostNoSuchComponent), st)
  | some comp =>
    if comp.ctype ≠ 3 then
      (.error (eventHandlersErr formName ("'" ++ formName ++ "' is not a UserForm")), st)
    else if occurs "btnOK_Click" comp.code then
      (.ok (), st)
    else
      (.ok (), updateComponent st formName (fun c => { c with code := c.code ++ buttonCode }))

/-- Embedding of `WordService.createShowUserFormModalFunction`
(word-service.ts:2408-2587): get or create the `UserFormHelper` standard
module, and append `showUserFormModalVbaCode` to it unless its code
already contains `Function ShowUserFormModal`, in which case nothing is
changed.  When the module is absent, `VBComponents.Add(1)` attaches a
fresh standard module which is renamed to `UserFormHelper` (no component
of that name exists, since `Item` just failed) and whose empty code
module cannot contain the marker, so the code is appended. -/
def createShowUserFormModalFunction (st : VBProject) : Except SpecError Unit × VBProject :=
  match findComponent st "UserFormHelper" with
  | some comp =>
    if occurs "Function ShowUserFormModal" comp.code then
      (.ok (), st)
    else
      (.ok (), updateComponent st "UserFormHelper"
        (fun c => { c with code := c.code ++ showUserFormModalVbaCode }))
  | none =>
    (.ok (), ⟨st.components ++
      [{ name := "UserFormHelper", ctype := 1, caption := "", width := 0, height := 0,
         startUpPosition := 0, controls := [], code := "" ++ showUserFormModalVbaCode }]⟩)

/-- One entry of the `controls` array accepted by
`createFormWithControls` (word-service.ts:2657-2665). -/
structure CtrlSpec where
  type : String
  name : String
  caption : Option String
  left : Int
  top : Int
  width : Int
  height : Int
  deriving DecidableEq, Repr

/-- The designer control produced from one successfully added control
descriptor (`ctrl.caption || ""` supplies the empty caption). -/
def toVBControl (c : CtrlSpec) : VBControl :=
  { name := c.name, caption := c.caption.getD "", left := c.left, top := c.top,
    width := c.width, height := c.height }

/-- The `for (const ctrl of controls)` loop of `createFormWithControls`
(word-service.ts:2674-2685): add each control in order, stopping at the
first failure (the thrown error propagates to the enclosing catch). -/
def addControlsLoop (formName : String) : List CtrlSpec → VBProject →
    Except SpecError Unit × VBProject
  | [], st => (.ok (), st)
  | c :: rest, st =>
    match addControlToUserForm formName c.type c.name (c.caption.getD "") c.left c.top
        c.width c.height st with
    | (.ok _, st1) => addControlsLoop formName rest st1
    | (.error e, st1) => (.error e, st1)

/-- Embedding of `WordService.createFormWithControls`
(word-service.ts:2652-2723): create the UserForm, add each described
control in order, and when `addStandardButtons` is true append the two
standard command buttons (`btnOK` at `(width - 20) - 160`, `btnCancel`
at `(width - 20) - 80`, both at `height - 60`, size 70 by 30) and the
standard event handlers.  Any error is rethrown by the catch block as a
generic error naming the form, with the state left exactly as it was at
the moment of failure (no rollback). -/
def createFormWithControls (formName caption : String) (width height : Int)
    (controls : List CtrlSpec) (addStandardButtons : Bool) (st : VBProject) :
    Except SpecError Unit × VBProject :=
  match createUserForm formName (some caption) width height st with
  | (.error e, st1) => (.error (createFormErr formName e.message), st1)
  | (.ok _, st1) =>
    match addControlsLoop formName controls st1 with
    | (.error e, st2) => (.error (createFormErr formName e.message), st2)
    | (.ok _, st2) =>
      if addStandardButtons then
        let buttonTop := height - 60
        let buttonRight := width - 20
        match addControlToUserForm formName "commandButton" "btnOK" "OK"
            (buttonRight - 160) buttonTop 70 30 st2 with
        | (.error e, st3) => (.error (createFormErr formName e.message), st3)
        | (.ok _, st3) =>
          match addControlToUserForm formName "commandButton" "btnCancel" "Cancel"
              (buttonRight - 80) buttonTop 70 30 st3 with
          | (.error e, st4) => (.error (createFormErr formName e.message), st4)
          | (.ok _, st4) =>
            match addStandardFormEventHandlers formName st4 with
            | (.error e, st5) => (.error (createFormErr formName e.message), st5)
            | (.ok _, st5) => (.ok (), st5)
      else
        (.ok (), st2)

/-- Embedding of `WordService.showUserForm` (word-service.ts:2246-2287):
fetch the form component by name, check its type, show the form modally
(`userForm.Show(1)` suspends until the user closes the dialog; the
runtime property-read outcomes observed afterwards are supplied as
`controlsAtClose`), then run the extraction loop.  The returned value is
the flat `formData` record alone. -/
def showUserForm (formName : String) (st : VBProject) (controlsAtClose : List RtControl) :
    Except SpecError (List (String × JValue)) :=
  match findComponent st formName with
  | none => .error (showUserFormErr formName hostNoSuchComponent)
  | some comp =>
    if comp.ctype ≠ 3 then
      .error (showUserFormErr formName ("'" ++ formName ++ "' is not a UserForm"))
    else
      .ok (collectControls controlsAtClose)

/-- Semantics of the generated `Private Sub btnOK_Click()` handler in
`buttonCode`: the form's private `cancelled` flag becomes `False` (the
argument is the flag's previous value). -/
def btnOKClick (_cancelled : Bool) : Bool := false

/-- Semantics of the generated `Private Sub btnCancel_Click()` handler in
`buttonCode`: the `cancelled` flag becomes `True`. -/
def btnCancelClick (_cancelled : Bool) : Bool := true

/-- Semantics of the generated `Private Sub UserForm_QueryClose` handler
in `buttonCode`: when `CloseMode = 0` (the user clicked the window's X
button) the `cancelled` flag becomes `True`, otherwise it is left as it
was. -/
def userFormQueryClose (closeMode : Int) (cancelled : Bool) : Bool :=
  if closeMode == 0 then true else cancelled

/-- A tool-call result as produced by the tool layer: the `text` contents
and the `isError` marker (absent in the success shape, embedded as
`false`). -/
structure CallToolResult where
  contentTexts : List String
  isError : Bool
  deriving DecidableEq, Repr

/-- Rendering of one collected value inside `JSON.stringify` output. -/
def JValue.render : JValue → String
  | .jstr s => "\"" ++ s ++ "\""
  | .jbool b => if b then "true" else "false"
  | .jnull => "null"

/-- Rendering of the collected mapping (`JSON.stringify(formData)`,
pretty-printing abstracted away). -/
def renderJson (m : List (String × JValue)) : String :=
  "\x7b" ++ String.intercalate "," (m.map (fun p => "\"" ++ p.1 ++ "\":" ++ p.2.render)) ++ "\x7d"

/-- Embedding of `showUserFormTool` (ActiveX tools file, lines 295-311):
the service call is wrapped in try/catch, a thrown error becoming a
result with `isError: true` and a textual message instead of a
propagated exception. -/
def showUserFormTool (formName : String) (st : VBProject) (controlsAtClose : List RtControl) :
    CallToolResult :=
  match showUserForm formName st controlsAtClose with
  | .ok formData =>
    { contentTexts := ["UserForm '" ++ formName ++ "' displayed. Collected data: " ++
        renderJson formData],
      isError := false }
  | .error e =>
    { contentTexts := ["Failed to show UserForm '" ++ formName ++ "': " ++ e.message],
      isError := true }

/-- Embedding of `createFormWithControlsTool` (ActiveX tools file, lines
418-441): the service call is wrapped in try/catch, a thrown error
becoming a result with `isError: true` and a textual message instead of
a propagated exception. -/
def createFormWithControlsTool (formName caption : String) (width height : Int)
    (controls : List CtrlSpec) (addStandardButtons : Bool) (st : VBProject) :
    CallToolResult × VBProject :=
  match createFormWithControls formName caption width height controls addStandardButtons st with
  | (.ok _, st1) =>
    ({ contentTexts := ["Successfully created UserForm '" ++ formName ++ "' with " ++
        toString controls.length ++ " controls. " ++
        (if addStandardButtons then "Standard OK/Cancel buttons and event handlers added."
         else "No standard buttons added.")],
       isError := false }, st1)
  | (.error e, st1) =>
    ({ contentTexts := ["Failed to create form: " ++ e.message], isError := true }, st1)

/-- The `btnOK` control appended by `createFormWithControls` when
`addStandardButtons` is true (word-service.ts:2692-2701). -/
def stdBtnOK (w h : Int) : VBControl :=
  { name := "btnOK", caption := "OK", left := w - 20 - 160, top := h - 60,
    width := 70, height := 30 }

/-- The `btnCancel` control appended by `createFormWithControls` when
`addStandardButtons` is true (word-service.ts:2703-2712). -/
def stdBtnCancel (w h : Int) : VBControl :=
  { name := "btnCancel", caption := "Cancel", left := w - 20 - 80, top := h - 60,
    width := 70, height := 30 }

theorem find?_name_append (base rest : List VBComponent) (fn : String)
    (h : ∀ c ∈ base, c.name ≠ fn) :
    (base ++ rest).find? (fun c => c.name == fn) = rest.find? (fun c => c.name == fn) := by
  induction base with
  | nil => simp
  | cons a l ih =>
    have ha : (a.name == fn) = false := by
      simpa using h a (by simp)
    simp only [List.cons_append, List.find?_cons, ha]
    exact ih (fun c hc => h c (List.mem_cons_of_mem _ hc))

theorem findComponent_eq (base : List VBComponent) (form : VBComponent)
    (rest : List VBComponent) (fn : String)
    (h : ∀ c ∈ base, c.name ≠ fn) (hn : form.name = fn) :
    findComponent ⟨base ++ form :: rest⟩ fn = some form := by
  unfold findComponent
  show (base ++ form :: rest).find? (fun c => c.name == fn) = some form
  rw [find?_name_append base (form :: rest) fn h]
  simp [List.find?_cons, hn]

theorem map_update_id (base : List VBComponent) (fn : String) (f : VBComponent → VBComponent)
    (h : ∀ c ∈ base, c.name ≠ fn) :
    base.map (fun c => if c.name == fn then f c else c) = base := by
  induction base with
  | nil => simp
  | cons a l ih =>
    have ha : (a.name == fn) = false := by simpa using h a (by simp)
    rw [List.map_cons, if_neg (by simp [ha]), ih (fun c hc => h c (List.mem_cons_of_mem _ hc))]

theorem updateComponent_eq (base : List VBComponent) (form : VBComponent) (fn : String)
    (f : VBComponent → VBComponent) (h : ∀ c ∈ base, c.name ≠ fn) (hn : form.name = fn) :
    updateComponent ⟨base ++ [form]⟩ fn f = ⟨base ++ [f form]⟩ := by
  unfold updateComponent
  congr 1
  rw [List.map_append, map_update_id base fn f h]
  simp [hn]

theorem createUserForm_ok (fn : String) (cap : Option String) (w h : Int) (st : VBProject)
    (hfresh : ∀ c ∈ st.components, c.name ≠ fn) :
    createUserForm fn cap w h st = (.ok (), ⟨st.components ++ [mkVBForm fn cap w h]⟩) := by
  unfold createUserForm
  have hany : st.components.any (fun c => c.name == fn) = false := by
    rw [List.any_eq_false]
    intro c hc
    simpa using hfresh c hc
  simp [hany]

theorem addControl_ok (base : List VBComponent) (form : VBComponent) (fn ty nm cap : String)
    (l t w h : Int) (hbase : ∀ c ∈ base, c.name ≠ fn) (hn : form.name = fn)
    (h3 : form.ctype = 3) (hty : (controlClassMap ty).isSome)
    (hnm : ∀ k ∈ form.controls, k.name ≠ nm) :
    addControlToUserForm fn ty nm cap l t w h ⟨base ++ [form]⟩ =
      (.ok (), ⟨base ++ [{ form with controls := form.controls ++
        [{ name := nm, caption := cap, left := l, top := t, width := w, height := h }] }]⟩) := by
  have hfind : findComponent ⟨base ++ [form]⟩ fn = some form :=
    findComponent_eq base form [] fn hbase hn
  obtain ⟨cid, hcid⟩ := Option.isSome_iff_exists.mp hty
  have hany : form.controls.any (fun k => k.name == nm) = false := by
    rw [List.any_eq_false]
    intro k hk
    simpa using hnm k hk
  conv_lhs => rw [addControlToUserForm, hfind]
  conv_lhs => simp [h3, hcid, hany]
  conv_lhs => rw [updateComponent_eq base form fn _ hbase hn]

theorem addControl_badclass (base : List VBComponent) (form : VBComponent) (fn ty nm cap : String)
    (l t w h : Int) (hbase : ∀ c ∈ base, c.name ≠ fn) (hn : form.name = fn)
    (h3 : form.ctype = 3) (hty : controlClassMap ty = none) :
    addControlToUserForm fn ty nm cap l t w h ⟨base ++ [form]⟩ =
      (.error (addControlErr fn hostInvalidClass), ⟨base ++ [form]⟩) := by
  have hfind : findComponent ⟨base ++ [form]⟩ fn = some form :=
    findComponent_eq base form [] fn hbase hn
  rw [addControlToUserForm, hfind]
  simp only [h3, hty]
  rw [if_neg (by simp)]

theorem addControl_dup (base : List VBComponent) (form : VBComponent) (fn ty nm cap : String)
    (l t w h : Int) (hbase : ∀ c ∈ base, c.name ≠ fn) (hn : form.name = fn)
    (h3 : form.ctype = 3) (hty : (controlClassMap ty).isSome)
    (hk : ∃ k ∈ form.controls, k.name = nm) :
    addControlToUserForm fn ty nm cap l t w h ⟨base ++ [form]⟩ =
      (.error (addControlErr fn hostDupControlName),
       ⟨base ++ [{ form with controls := form.controls ++
          [defaultVBControl form.controls.length] }]⟩) := by
  have hfind : findComponent ⟨base ++ [form]⟩ fn = some form :=
    findComponent_eq base form [] fn hbase hn
  obtain ⟨cid, hcid⟩ := Option.isSome_iff_exists.mp hty
  have hany : form.controls.any (fun k => k.name == nm) = true := by
    rw [List.any_eq_true]
    obtain ⟨k, hkmem, hkeq⟩ := hk
    exact ⟨k, hkmem, by simp [hkeq]⟩
  conv_lhs => rw [addControlToUserForm, hfind]
  conv_lhs => simp only [h3, hcid, hany]
  conv_lhs => rw [updateComponent_eq base form fn _ hbase hn]
  rfl

theorem addControlsLoop_append (fn : String) (pre rest : List CtrlSpec) :
    ∀ (base : List VBComponent) (form : VBComponent),
    (∀ c ∈ base, c.name ≠ fn) → form.name = fn → form.ctype = 3 →
    (∀ c ∈ pre, (controlClassMap c.type).isSome) →
    (pre.map CtrlSpec.name).Nodup →
    (∀ c ∈ pre, ∀ k ∈ form.controls, k.name ≠ c.name) →
    addControlsLoop fn (pre ++ rest) ⟨base ++ [form]⟩ =
      addControlsLoop fn rest
        ⟨base ++ [{ form with controls := form.controls ++ pre.map toVBControl }]⟩ := by
  induction pre with
  | nil =>
    intro base form _ _ _ _ _ _
    simp
  | cons c pre' ih =>
    intro base form hbase hn h3 htypes hnodup hdisj
    have hstep := addControl_ok base form fn c.type c.name (c.caption.getD "")
      c.left c.top c.width c.height hbase hn h3 (htypes c (by simp))
      (fun k hk => hdisj c (by simp) k hk)
    have hloop : addControlsLoop fn ((c :: pre') ++ rest) ⟨base ++ [form]⟩ =
        addControlsLoop fn (pre' ++ rest)
          ⟨base ++ [{ form with controls := form.controls ++ [toVBControl c] }]⟩ := by
      rw [List.cons_append, addControlsLoop, hstep]
      rfl
    rw [hloop]
    have hnodup2 : c.name ∉ pre'.map CtrlSpec.name ∧ (pre'.map CtrlSpec.name).Nodup := by
      rw [List.map_cons] at hnodup
      exact List.nodup_cons.mp hnodup
    have hnotin : c.name ∉ pre'.map CtrlSpec.name := hnodup2.1
    have hdisj' : ∀ c' ∈ pre',
        ∀ k ∈ ({ form with controls := form.controls ++ [toVBControl c] } :
          VBComponent).controls, k.name ≠ c'.name := by
      intro c' hc' k hk
      rcases List.mem_append.mp hk with hold | hnew
      · exact hdisj c' (by simp [hc']) k hold
      · have : k = toVBControl c := by simpa using hnew
        subst this
        intro hEq
        apply hnotin
        have : c.name = c'.name := hEq
        rw [this]
        exact List.mem_map.mpr ⟨c', hc', rfl⟩
    have := ih base { form with controls := form.controls ++ [toVBControl c] }
      hbase hn h3 (fun d hd => htypes d (by simp [hd])) hnodup2.2 hdisj'
    rw [this]
    simp

theorem collect_append_of_no_raise (pre rest : List RtControl)
    (h : ∀ d ∈ pre, readRaises d = false) :
    collectControls (pre ++ rest) = collectControls pre ++ collectControls rest := by
  induction pre with
  | nil => simp [collectControls]
  | cons d pre' ih =>
    have hd : readRaises d = false := h d (by simp)
    have hrest : ∀ e ∈ pre', readRaises e = false := fun e he => h e (by simp [he])
    cases hv : d.value with
    | raise => simp [readRaises, hv] at hd
    | val v => simp [collectControls, hv, ih hrest]
    | undef =>
      cases ht : d.text with
      | raise => simp [readRaises, hv, ht] at hd
      | val v => simp [collectControls, hv, ht, ih hrest]
      | undef =>
        cases hc : d.caption with
        | raise => simp [readRaises, hv, ht, hc] at hd
        | val v => simp [collectControls, hv, ht, hc, ih hrest]
        | undef => simp [collectControls, hv, ht, hc, ih hrest]

theorem collect_cons_raise (bad : RtControl) (post : List RtControl)
    (h : readRaises bad = true) : collectControls (bad :: post) = [] := by
  cases hv : bad.value with
  | raise => simp [collectControls, hv]
  | val v => simp [readRaises, hv] at h
  | undef =>
    cases ht : bad.text with
    | raise => simp [collectControls, hv, ht]
    | val v => simp [readRaises, hv, ht] at h
    | undef =>
      cases hc : bad.caption with
      | raise => simp [collectControls, hv, ht, hc]
      | val v => simp [readRaises, hv, ht, hc] at h
      | undef => simp [readRaises, hv, ht, hc] at h

theorem collect_lookup_none (rt : List RtControl) (key : String)
    (h : ∀ c ∈ rt, c.name ≠ key) :
    List.lookup key (collectControls rt) = none := by
  induction rt with
  | nil => simp [collectControls]
  | cons c rest ih =>
    have hc : c.name ≠ key := h c (by simp)
    have hr : ∀ d ∈ rest, d.name ≠ key := fun d hd => h d (List.mem_cons_of_mem _ hd)
    have hbeq : (key == c.name) = false := by
      simp
      exact Ne.symm hc
    cases hv : c.value with
    | raise => simp [collectControls, hv]
    | val v => simp [collectControls, hv, List.lookup, hbeq, ih hr]
    | undef =>
      cases ht : c.text with
      | raise => simp [collectControls, hv, ht]
      | val v => simp [collectControls, hv, ht, List.lookup, hbeq, ih hr]
      | undef =>
        cases hcap : c.caption with
        | raise => simp [collectControls, hv, ht, hcap]
        | val v => simp [collectControls, hv, ht, hcap, List.lookup, hbeq, ih hr]
        | undef => simp [collectControls, hv, ht, hcap, ih hr]

theorem collect_entry_of_caption (pre post : List RtControl) (c : RtControl) (v : JValue)
    (hpre : ∀ d ∈ pre, readRaises d = false)
    (hval : c.value = .undef) (htext : c.text = .undef) (hcap : c.caption = .val v) :
    collectControls (pre ++ c :: post) =
      collectControls pre ++ (c.name, v) :: collectControls post := by
  rw [collect_append_of_no_raise pre (c :: post) hpre]
  simp [collectControls, hval, htext, hcap]

/-- C4: for every input width below 300 or height below 200 to form
construction (`createUserForm`), the resulting form's width and height
are raised to exactly 300 and 200 respectively — clamped to the floor,
never lower, and the construction is never rejected for being too
small. -/
theorem claim_C4 (st : VBProject) (fn : String) (cap : Option String) (w h : Int)
    (hfresh : ∀ c ∈ st.components, c.name ≠ fn) :
    (createUserForm fn cap w h st).1 = .ok () ∧
    ∃ comp, findComponent (createUserForm fn cap w h st).2 fn = some comp ∧
      (w < 300 → comp.width = 300) ∧ (h < 200 → comp.height = 200) ∧
      300 ≤ comp.width ∧ 200 ≤ comp.height := by
  rw [createUserForm_ok fn cap w h st hfresh]
  refine ⟨rfl, mkVBForm fn cap w h, ?_, ?_, ?_, ?_, ?_⟩
  · exact findComponent_eq st.components (mkVBForm fn cap w h) [] fn hfresh rfl
  · intro hw
    show max w 300 = 300
    exact max_eq_right (le_of_lt hw)
  · intro hh
    show max h 200 = 200
    exact max_eq_right (le_of_lt hh)
  · exact le_max_right w 300
  · exact le_max_right h 200

/-- C4 witness: constructing a form of requested size 1 by 1 in an empty
project succeeds and yields the floor size 300 by 200. -/
theorem claim_C4_witness :
    (∀ c ∈ (⟨[]⟩ : VBProject).components, c.name ≠ "FrmTest") ∧
    ((createUserForm "FrmTest" none 1 1 ⟨[]⟩).1 = .ok () ∧
      ∃ comp, findComponent (createUserForm "FrmTest" none 1 1 ⟨[]⟩).2 "FrmTest" = some comp ∧
        ((1 : Int) < 300 → comp.width = 300) ∧ ((1 : Int) < 200 → comp.height = 200) ∧
        300 ≤ comp.width ∧ 200 ≤ comp.height) :=
  ⟨by simp, claim_C4 ⟨[]⟩ "FrmTest" none 1 1 (by simp)⟩

/-- C6 as amended: materializing a second form with an already-used
`formName` fails — the host rejects the duplicate component name — with
the generic `Failed to create UserForm` error rather than a
distinguished `DuplicateFormError`, and the first form remains intact
(materialization never silently overwrites it); the aborted attempt
additionally leaves a fresh default-named component behind. -/
theorem claim_C6_amended (st : VBProject) (fn : String) (cap cap2 : Option String)
    (w h w2 h2 : Int) (hfresh : ∀ c ∈ st.components, c.name ≠ fn) :
    (createUserForm fn cap w h st).1 = .ok () ∧
    (createUserForm fn cap2 w2 h2 (createUserForm fn cap w h st).2).1 =
      .error (createUserFormErr fn hostDupComponentName) ∧
    isDuplicateFormFailure (createUserForm fn cap2 w2 h2 (createUserForm fn cap w h st).2)
      = false ∧
    findComponent (createUserForm fn cap2 w2 h2 (createUserForm fn cap w h st).2).2 fn =
      some (mkVBForm fn cap w h) := by
  rw [createUserForm_ok fn cap w h st hfresh]
  have hdup : (VBProject.mk (st.components ++ [mkVBForm fn cap w h])).components.any
      (fun c => c.name == fn) = true := by
    rw [List.any_eq_true]
    exact ⟨mkVBForm fn cap w h, by simp, by simp [mkVBForm]⟩
  have h2nd : createUserForm fn cap2 w2 h2 ⟨st.components ++ [mkVBForm fn cap w h]⟩ =
      (.error (createUserFormErr fn hostDupComponentName),
       ⟨(st.components ++ [mkVBForm fn cap w h]) ++
         [{ name := defaultComponentName ⟨st.components ++ [mkVBForm fn cap w h]⟩,
            ctype := 3, caption := "", width := 0, height := 0, startUpPosition := 0,
            controls := [], code := "" }]⟩) := by
    rw [createUserForm]
    simp [hdup]
  rw [h2nd]
  refine ⟨rfl, rfl, rfl, ?_⟩
  show findComponent ⟨(st.components ++ [mkVBForm fn cap w h]) ++ _⟩ fn = _
  rw [show (st.components ++ [mkVBForm fn cap w h]) ++
      [{ name := defaultComponentName ⟨st.components ++ [mkVBForm fn cap w h]⟩,
         ctype := 3, caption := "", width := 0, height := 0, startUpPosition := 0,
         controls := [], code := "" }] =
      st.components ++ mkVBForm fn cap w h ::
        [{ name := defaultComponentName ⟨st.components ++ [mkVBForm fn cap w h]⟩,
           ctype := 3, caption := "", width := 0, height := 0, startUpPosition := 0,
           controls := [], code := "" }] from by simp]
  exact findComponent_eq st.components (mkVBForm fn cap w h) _ fn hfresh rfl

/-- C6 counterexample: in an empty project, creating `FrmA` and then
creating `FrmA` again fails with the generic error, not with a
`DuplicateFormError` as the claim states, while the first form survives
unchanged. -/
theorem claim_C6_counterexample :
    (createUserForm "FrmA" (some "T") 400 300
        (createUserForm "FrmA" (some "T") 400 300 ⟨[]⟩).2).1 =
      .error (createUserFormErr "FrmA" hostDupComponentName) ∧
    isDuplicateFormFailure
      (createUserForm "FrmA" (some "T") 400 300
        (createUserForm "FrmA" (some "T") 400 300 ⟨[]⟩).2) = false ∧
    findComponent (createUserForm "FrmA" (some "T") 400 300
        (createUserForm "FrmA" (some "T") 400 300 ⟨[]⟩).2).2 "FrmA" =
      some ⟨"FrmA", 3, "T", 400, 300, 1, [], ""⟩ :=
  ⟨rfl, rfl, rfl⟩

/-- C6 witness: the amended theorem applied to an empty project. -/
theorem claim_C6_witness :
    (∀ c ∈ (⟨[]⟩ : VBProject).components, c.name ≠ "FrmB") ∧
    ((createUserForm "FrmB" none 400 300 ⟨[]⟩).1 = .ok () ∧
      (createUserForm "FrmB" none 500 400 (createUserForm "FrmB" none 400 300 ⟨[]⟩).2).1 =
        .error (createUserFormErr "FrmB" hostDupComponentName) ∧
      isDuplicateFormFailure
        (createUserForm "FrmB" none 500 400 (createUserForm "FrmB" none 400 300 ⟨[]⟩).2)
        = false ∧
      findComponent
        (createUserForm "FrmB" none 500 400 (createUserForm "FrmB" none 400 300 ⟨[]⟩).2).2
        "FrmB" = some (mkVBForm "FrmB" none 400 300)) :=
  ⟨by simp, claim_C6_amended ⟨[]⟩ "FrmB" none none 400 300 500 400 (by simp)⟩

/-- C7: for every valid control list (supported types, distinct names,
not colliding with the reserved button names), `createFormWithControls`
succeeds; with `addStandardButtons` true the form carries exactly the
input controls followed by `btnOK` and `btnCancel` at vertical position
`height - 60` and at the right edge minus the fixed margins (180 and
100); with the flag false no controls beyond the input list are
added. -/
theorem claim_C7 (st : VBProject) (fn cap : String) (w h : Int) (ctrls : List CtrlSpec)
    (flag : Bool)
    (hfresh : ∀ c ∈ st.components, c.name ≠ fn)
    (htypes : ∀ c ∈ ctrls, (controlClassMap c.type).isSome)
    (hnodup : (ctrls.map CtrlSpec.name).Nodup)
    (hbtn : flag = true → "btnOK" ∉ ctrls.map CtrlSpec.name ∧
      "btnCancel" ∉ ctrls.map CtrlSpec.name) :
    (createFormWithControls fn cap w h ctrls flag st).1 = .ok () ∧
    ∃ form, findComponent (createFormWithControls fn cap w h ctrls flag st).2 fn = some form ∧
      form.controls = ctrls.map toVBControl ++
        (if flag then [stdBtnOK w h, stdBtnCancel w h] else []) := by
  have h1 := createUserForm_ok fn (some cap) w h st hfresh
  have hloop := addControlsLoop_append fn ctrls [] st.components (mkVBForm fn (some cap) w h)
    hfresh rfl rfl htypes hnodup (by simp [mkVBForm])
  rw [List.append_nil] at hloop
  simp only [addControlsLoop] at hloop
  set form1 : VBComponent :=
    { mkVBForm fn (some cap) w h with
      controls := (mkVBForm fn (some cap) w h).controls ++ ctrls.map toVBControl } with hform1
  cases flag with
  | false =>
    have hR : createFormWithControls fn cap w h ctrls false st =
        (.ok (), ⟨st.components ++ [form1]⟩) := by
      rw [createFormWithControls, h1]
      simp only [hloop]
      rfl
    rw [hR]
    refine ⟨rfl, form1, ?_, ?_⟩
    · exact findComponent_eq st.components form1 [] fn hfresh (by simp [hform1, mkVBForm])
    · simp [hform1, mkVBForm]
  | true =>
    have hOKname : ∀ k ∈ form1.controls, k.name ≠ "btnOK" := by
      intro k hk
      rw [hform1] at hk
      simp only [mkVBForm] at hk
      rw [List.nil_append] at hk
      obtain ⟨c, hc, rfl⟩ := List.mem_map.mp hk
      intro hEq
      exact (hbtn rfl).1 (List.mem_map.mpr ⟨c, hc, hEq⟩)
    have hbOK := addControl_ok st.components form1 fn "commandButton" "btnOK" "OK"
      (w - 20 - 160) (h - 60) 70 30 hfresh (by simp [hform1, mkVBForm])
      (by simp [hform1, mkVBForm]) (by rfl) hOKname
    set form2 : VBComponent :=
      { form1 with controls := form1.controls ++ [stdBtnOK w h] } with hform2
    have hbOK2 : addControlToUserForm fn "commandButton" "btnOK" "OK"
        (w - 20 - 160) (h - 60) 70 30 ⟨st.components ++ [form1]⟩ =
        (.ok (), ⟨st.components ++ [form2]⟩) := hbOK
    have hCname : ∀ k ∈ form2.controls, k.name ≠ "btnCancel" := by
      intro k hk
      rw [hform2] at hk
      rcases List.mem_append.mp hk with hold | hnew
      · rw [hform1] at hold
        simp only [mkVBForm] at hold
        rw [List.nil_append] at hold
        obtain ⟨c, hc, rfl⟩ := List.mem_map.mp hold
        intro hEq
        exact (hbtn rfl).2 (List.mem_map.mpr ⟨c, hc, hEq⟩)
      · rw [List.mem_singleton.mp hnew]
        simp [stdBtnOK]
    have hbCancel := addControl_ok st.components form2 fn "commandButton" "btnCancel" "Cancel"
      (w - 20 - 80) (h - 60) 70 30 hfresh (by simp [hform2, hform1, mkVBForm])
      (by simp [hform2, hform1, mkVBForm]) (by rfl) hCname
    set form3 : VBComponent :=
      { form2 with controls := form2.controls ++ [stdBtnCancel w h] } with hform3
    have hbCancel2 : addControlToUserForm fn "commandButton" "btnCancel" "Cancel"
        (w - 20 - 80) (h - 60) 70 30 ⟨st.components ++ [form2]⟩ =
        (.ok (), ⟨st.components ++ [form3]⟩) := hbCancel
    have hEvt : addStandardFormEventHandlers fn ⟨st.components ++ [form3]⟩ =
        (.ok (), ⟨st.components ++ [{ form3 with code := form3.code ++ buttonCode }]⟩) := by
      have hfind3 : findComponent ⟨st.components ++ [form3]⟩ fn = some form3 :=
        findComponent_eq st.components form3 [] fn hfresh
          (by simp [hform3, hform2, hform1, mkVBForm])
      have hocc : occurs "btnOK_Click" form3.code = false := by
        rw [hform3, hform2, hform1]
        simp only [mkVBForm]
        decide
      have hct : form3.ctype = 3 := by simp [hform3, hform2, hform1, mkVBForm]
      conv_lhs => rw [addStandardFormEventHandlers, hfind3]
      conv_lhs => simp [hct, hocc]
      conv_lhs => rw [updateComponent_eq st.components form3 fn _ hfresh
        (by simp [hform3, hform2, hform1, mkVBForm])]
      rfl
    have hR : createFormWithControls fn cap w h ctrls true st =
        (.ok (), ⟨st.components ++ [{ form3 with code := form3.code ++ buttonCode }]⟩) := by
      rw [createFormWithControls, h1]
      simp only [hloop, hbOK2, hbCancel2, hEvt]
      rfl
    rw [hR]
    refine ⟨rfl, { form3 with code := form3.code ++ buttonCode }, ?_, ?_⟩
    · exact findComponent_eq st.components _ [] fn hfresh
        (by simp [hform3, hform2, hform1, mkVBForm])
    · simp [hform3, hform2, hform1, mkVBForm]

/-- C7 witness: a two-control form with standard buttons, built in an
empty project, carries exactly the two inputs plus `btnOK` and
`btnCancel` with the fixed geometry. -/
theorem claim_C7_witness :
    (createFormWithControls "FrmC7" "Demo" 400 300
        [⟨"textBox", "txtName", none, 20, 30, 180, 25⟩,
         ⟨"checkBox", "chkAgree", some "I agree", 20, 70, 180, 25⟩] true ⟨[]⟩).1 = .ok () ∧
    ∃ form, findComponent (createFormWithControls "FrmC7" "Demo" 400 300
        [⟨"textBox", "txtName", none, 20, 30, 180, 25⟩,
         ⟨"checkBox", "chkAgree", some "I agree", 20, 70, 180, 25⟩] true ⟨[]⟩).2 "FrmC7" =
        some form ∧
      form.controls = List.map toVBControl
          [⟨"textBox", "txtName", none, 20, 30, 180, 25⟩,
           ⟨"checkBox", "chkAgree", some "I agree", 20, 70, 180, 25⟩] ++
        (if true then [stdBtnOK 400 300, stdBtnCancel 400 300] else []) :=
  claim_C7 ⟨[]⟩ "FrmC7" "Demo" 400 300
    [⟨"textBox", "txtName", none, 20, 30, 180, 25⟩,
     ⟨"checkBox", "chkAgree", some "I agree", 20, 70, 180, 25⟩] true
    (by simp) (by decide) (by decide) (by decide)

/-- C8: when adding one control fails (its type has no class id, so the
host cannot instantiate it), `createFormWithControls` aborts with an
error identifying the form, while the form container and every control
added before the failing one remain attached — no rollback. -/
theorem claim_C8 (st : VBProject) (fn cap : String) (w h : Int)
    (pre rest : List CtrlSpec) (bad : CtrlSpec) (flag : Bool)
    (hfresh : ∀ c ∈ st.components, c.name ≠ fn)
    (htypes : ∀ c ∈ pre, (controlClassMap c.type).isSome)
    (hnodup : (pre.map CtrlSpec.name).Nodup)
    (hbad : controlClassMap bad.type = none) :
    (createFormWithControls fn cap w h (pre ++ bad :: rest) flag st).1 =
      .error (createFormErr fn (addControlErr fn hostInvalidClass).message) ∧
    ∃ form,
      findComponent (createFormWithControls fn cap w h (pre ++ bad :: rest) flag st).2 fn =
        some form ∧ form.controls = pre.map toVBControl := by
  have h1 := createUserForm_ok fn (some cap) w h st hfresh
  have hloop := addControlsLoop_append fn pre (bad :: rest) st.components
    (mkVBForm fn (some cap) w h) hfresh rfl rfl htypes hnodup (by simp [mkVBForm])
  set form1 : VBComponent :=
    { mkVBForm fn (some cap) w h with
      controls := (mkVBForm fn (some cap) w h).controls ++ pre.map toVBControl } with hform1
  have hbadstep := addControl_badclass st.components form1 fn bad.type bad.name
    (bad.caption.getD "") bad.left bad.top bad.width bad.height hfresh
    (by simp [hform1, mkVBForm]) (by simp [hform1, mkVBForm]) hbad
  have hloop2 : addControlsLoop fn (bad :: rest) ⟨st.components ++ [form1]⟩ =
      (.error (addControlErr fn hostInvalidClass), ⟨st.components ++ [form1]⟩) := by
    rw [addControlsLoop, hbadstep]
  have hR : createFormWithControls fn cap w h (pre ++ bad :: rest) flag st =
      (.error (createFormErr fn (addControlErr fn hostInvalidClass).message),
       ⟨st.components ++ [form1]⟩) := by
    rw [createFormWithControls, h1]
    simp only [hloop, hloop2]
  rw [hR]
  refine ⟨rfl, form1, ?_, ?_⟩
  · exact findComponent_eq st.components form1 [] fn hfresh (by simp [hform1, mkVBForm])
  · simp [hform1, mkVBForm]

/-- C8 witness: a list whose second control has unknown type `badType`
aborts form construction with the wrapped error while the container and
the first control survive. -/
theorem claim_C8_witness :
    (createFormWithControls "FrmC8" "Demo" 400 300
        ([⟨"textBox", "txtA", none, 10, 10, 100, 25⟩] ++
          ⟨"badType", "ctlBad", none, 10, 40, 100, 25⟩ ::
            [⟨"textBox", "txtZ", none, 10, 70, 100, 25⟩]) true ⟨[]⟩).1 =
      .error (createFormErr "FrmC8" (addControlErr "FrmC8" hostInvalidClass).message) ∧
    ∃ form, findComponent (createFormWithControls "FrmC8" "Demo" 400 300
        ([⟨"textBox", "txtA", none, 10, 10, 100, 25⟩] ++
          ⟨"badType", "ctlBad", none, 10, 40, 100, 25⟩ ::
            [⟨"textBox", "txtZ", none, 10, 70, 100, 25⟩]) true ⟨[]⟩).2 "FrmC8" =
        some form ∧
      form.controls = List.map toVBControl [⟨"textBox", "txtA", none, 10, 10, 100, 25⟩] :=
  claim_C8 ⟨[]⟩ "FrmC8" "Demo" 400 300
    [⟨"textBox", "txtA", none, 10, 10, 100, 25⟩]
    [⟨"textBox", "txtZ", none, 10, 70, 100, 25⟩]
    ⟨"badType", "ctlBad", none, 10, 40, 100, 25⟩ true
    (by simp) (by decide) (by decide) (by decide)

/-- C5 as amended: `createFormWithControls` performs no duplicate-name
validation.  With a control list holding a duplicated name, the form
container is created and the earlier controls are added (host-surface
calls do occur), the operation fails only when the host rejects the
duplicate control name, and the failure is the generic wrapped error,
not a `ValidationError`. -/
theorem claim_C5_amended (st : VBProject) (fn cap : String) (w h : Int)
    (pre rest : List CtrlSpec) (dup : CtrlSpec) (flag : Bool)
    (hfresh : ∀ c ∈ st.components, c.name ≠ fn)
    (htypes : ∀ c ∈ pre, (controlClassMap c.type).isSome)
    (hnodup : (pre.map CtrlSpec.name).Nodup)
    (htyDup : (controlClassMap dup.type).isSome)
    (hdupname : dup.name ∈ pre.map CtrlSpec.name) :
    (createFormWithControls fn cap w h (pre ++ dup :: rest) flag st).1 =
      .error (createFormErr fn (addControlErr fn hostDupControlName).message) ∧
    isValidationFailure (createFormWithControls fn cap w h (pre ++ dup :: rest) flag st)
      = false ∧
    (createFormWithControls fn cap w h (pre ++ dup :: rest) flag st).2.components.length =
      st.components.length + 1 ∧
    ∃ form,
      findComponent (createFormWithControls fn cap w h (pre ++ dup :: rest) flag st).2 fn =
        some form ∧
      form.controls = pre.map toVBControl ++ [defaultVBControl pre.length] := by
  have h1 := createUserForm_ok fn (some cap) w h st hfresh
  have hloop := addControlsLoop_append fn pre (dup :: rest) st.components
    (mkVBForm fn (some cap) w h) hfresh rfl rfl htypes hnodup (by simp [mkVBForm])
  set form1 : VBComponent :=
    { mkVBForm fn (some cap) w h with
      controls := (mkVBForm fn (some cap) w h).controls ++ pre.map toVBControl } with hform1
  have hkdup : ∃ k ∈ form1.controls, k.name = dup.name := by
    obtain ⟨c, hc, hceq⟩ := List.mem_map.mp hdupname
    refine ⟨toVBControl c, ?_, hceq⟩
    rw [hform1]
    simp only [mkVBForm]
    rw [List.nil_append]
    exact List.mem_map.mpr ⟨c, hc, rfl⟩
  have hdupstep := addControl_dup st.components form1 fn dup.type dup.name
    (dup.caption.getD "") dup.left dup.top dup.width dup.height hfresh
    (by simp [hform1, mkVBForm]) (by simp [hform1, mkVBForm]) htyDup hkdup
  set form2 : VBComponent :=
    { form1 with controls := form1.controls ++ [defaultVBControl form1.controls.length] }
    with hform2
  have hdupstep2 : addControlToUserForm fn dup.type dup.name (dup.caption.getD "")
      dup.left dup.top dup.width dup.height ⟨st.components ++ [form1]⟩ =
      (.error (addControlErr fn hostDupControlName), ⟨st.components ++ [form2]⟩) := hdupstep
  have hloop2 : addControlsLoop fn (dup :: rest) ⟨st.components ++ [form1]⟩ =
      (.error (addControlErr fn hostDupControlName), ⟨st.components ++ [form2]⟩) := by
    rw [addControlsLoop, hdupstep2]
  have hR : createFormWithControls fn cap w h (pre ++ dup :: rest) flag st =
      (.error (createFormErr fn (addControlErr fn hostDupControlName).message),
       ⟨st.components ++ [form2]⟩) := by
    rw [createFormWithControls, h1]
    simp only [hloop, hloop2]
  rw [hR]
  refine ⟨rfl, rfl, by simp, form2, ?_, ?_⟩
  · exact findComponent_eq st.components form2 [] fn hfresh
      (by simp [hform2, hform1, mkVBForm])
  · simp [hform2, hform1, mkVBForm]

/-- C5 counterexample: two controls both named `txtEmail` do not produce
a `ValidationError` and host-surface calls do occur before the failure —
the form container exists in the final state, holding the first
`txtEmail` and the junk control left by the host's rejection of the
duplicate name. -/
theorem claim_C5_counterexample :
    isValidationFailure
      (createFormWithControls "FrmC5x" "Cap" 400 300
        [⟨"textBox", "txtEmail", none, 10, 10, 100, 25⟩,
         ⟨"textBox", "txtEmail", none, 10, 40, 100, 25⟩] true ⟨[]⟩) = false ∧
    isFailure
      (createFormWithControls "FrmC5x" "Cap" 400 300
        [⟨"textBox", "txtEmail", none, 10, 10, 100, 25⟩,
         ⟨"textBox", "txtEmail", none, 10, 40, 100, 25⟩] true ⟨[]⟩) = true ∧
    (findComponent
      (createFormWithControls "FrmC5x" "Cap" 400 300
        [⟨"textBox", "txtEmail", none, 10, 10, 100, 25⟩,
         ⟨"textBox", "txtEmail", none, 10, 40, 100, 25⟩] true ⟨[]⟩).2 "FrmC5x").isSome
      = true :=
  ⟨rfl, rfl, rfl⟩

/-- C5 witness: the amended theorem applied to a concrete duplicate
pair. -/
theorem claim_C5_witness :
    (createFormWithControls "FrmC5" "Cap" 400 300
        ([⟨"textBox", "txtEmail", none, 10, 10, 100, 25⟩] ++
          ⟨"textBox", "txtEmail", none, 10, 40, 100, 25⟩ :: []) true ⟨[]⟩).1 =
      .error (createFormErr "FrmC5" (addControlErr "FrmC5" hostDupControlName).message) ∧
    isValidationFailure
      (createFormWithControls "FrmC5" "Cap" 400 300
        ([⟨"textBox", "txtEmail", none, 10, 10, 100, 25⟩] ++
          ⟨"textBox", "txtEmail", none, 10, 40, 100, 25⟩ :: []) true ⟨[]⟩) = false ∧
    (createFormWithControls "FrmC5" "Cap" 400 300
        ([⟨"textBox", "txtEmail", none, 10, 10, 100, 25⟩] ++
          ⟨"textBox", "txtEmail", none, 10, 40, 100, 25⟩ :: []) true ⟨[]⟩).2.components.length
      = (⟨[]⟩ : VBProject).components.length + 1 ∧
    ∃ form,
      findComponent (createFormWithControls "FrmC5" "Cap" 400 300
          ([⟨"textBox", "txtEmail", none, 10, 10, 100, 25⟩] ++
            ⟨"textBox", "txtEmail", none, 10, 40, 100, 25⟩ :: []) true ⟨[]⟩).2 "FrmC5" =
        some form ∧
      form.controls = List.map toVBControl [⟨"textBox", "txtEmail", none, 10, 10, 100, 25⟩] ++
        [defaultVBControl 1] :=
  claim_C5_amended ⟨[]⟩ "FrmC5" "Cap" 400 300
    [⟨"textBox", "txtEmail", none, 10, 10, 100, 25⟩] []
    ⟨"textBox", "txtEmail", none, 10, 40, 100, 25⟩ true
    (by simp) (by decide) (by decide) (by decide) (by decide)

/-- C1 counterexample: `showUserForm` on a materialized form returns
only the flat data mapping; at this concrete input the returned record
is `{txtName: "Ada"}` and holds no `cancelled` field at all, contrary
to the claimed `{data, cancelled}` shape. -/
theorem claim_C1_counterexample :
    showUserForm "FrmX" ⟨[⟨"FrmX", 3, "T", 400, 300, 1, [], ""⟩]⟩
        [⟨"txtName", PropRead.val (JValue.jstr "Ada"), PropRead.undef, PropRead.undef⟩] =
      .ok [("txtName", JValue.jstr "Ada")] ∧
    List.lookup "cancelled" [("txtName", JValue.jstr "Ada")] = none :=
  ⟨rfl, rfl⟩

/-- C1 as amended: `showUserForm` returns only the flat data mapping,
which contains no `cancelled` key (whenever no control is itself named
`cancelled`); cancellation is tracked only by the private flag inside
the generated form code, whose `UserForm_QueryClose` handler sets it to
true on window-chrome dismissal (`CloseMode = 0`), and that flag is not
part of `showUserForm`'s return value. -/
theorem claim_C1_amended (st : VBProject) (fn : String) (comp : VBComponent)
    (rt : List RtControl)
    (hfind : findComponent st fn = some comp) (h3 : comp.ctype = 3)
    (hnc : ∀ c ∈ rt, c.name ≠ "cancelled") :
    showUserForm fn st rt = .ok (collectControls rt) ∧
    List.lookup "cancelled" (collectControls rt) = none ∧
    (∀ b : Bool, userFormQueryClose 0 b = true) ∧
    (∀ b : Bool, btnOKClick b = false ∧ btnCancelClick b = true) := by
  refine ⟨?_, collect_lookup_none rt "cancelled" hnc, fun b => rfl, fun b => ⟨rfl, rfl⟩⟩
  rw [showUserForm, hfind]
  simp [h3]

/-- C1 witness: the amended theorem applied to a one-textbox form. -/
theorem claim_C1_witness :
    showUserForm "FrmC1" ⟨[⟨"FrmC1", 3, "T", 400, 300, 1, [], ""⟩]⟩
        [⟨"txtAge", PropRead.val (JValue.jstr "41"), PropRead.undef, PropRead.undef⟩] =
      .ok (collectControls
        [⟨"txtAge", PropRead.val (JValue.jstr "41"), PropRead.undef, PropRead.undef⟩]) ∧
    List.lookup "cancelled" (collectControls
      [⟨"txtAge", PropRead.val (JValue.jstr "41"), PropRead.undef, PropRead.undef⟩]) = none :=
  ⟨(claim_C1_amended ⟨[⟨"FrmC1", 3, "T", 400, 300, 1, [], ""⟩]⟩ "FrmC1"
      ⟨"FrmC1", 3, "T", 400, 300, 1, [], ""⟩
      [⟨"txtAge", PropRead.val (JValue.jstr "41"), PropRead.undef, PropRead.undef⟩]
      rfl rfl (by decide)).1,
   (claim_C1_amended ⟨[⟨"FrmC1", 3, "T", 400, 300, 1, [], ""⟩]⟩ "FrmC1"
      ⟨"FrmC1", 3, "T", 400, 300, 1, [], ""⟩
      [⟨"txtAge", PropRead.val (JValue.jstr "41"), PropRead.undef, PropRead.undef⟩]
      rfl rfl (by decide)).2.1⟩

/-- C2 counterexample: a label (`lblName`) and a button (`btnOK`), whose
runtime reads have `Value` and `Text` undefined but `Caption` present,
do appear as keys of the mapping returned by `showUserForm`, bound to
their captions — contrary to the claim that label and button controls
are excluded. -/
theorem claim_C2_counterexample :
    showUserForm "FrmY" ⟨[⟨"FrmY", 3, "T", 400, 300, 1, [], ""⟩]⟩
        [⟨"lblName", PropRead.undef, PropRead.undef, PropRead.val (JValue.jstr "Name:")⟩,
         ⟨"txtName", PropRead.val (JValue.jstr "Ada"), PropRead.undef, PropRead.undef⟩,
         ⟨"btnOK", PropRead.undef, PropRead.undef, PropRead.val (JValue.jstr "OK")⟩] =
      .ok [("lblName", JValue.jstr "Name:"), ("txtName", JValue.jstr "Ada"),
           ("btnOK", JValue.jstr "OK")] ∧
    (List.lookup "btnOK" [("lblName", JValue.jstr "Name:"), ("txtName", JValue.jstr "Ada"),
        ("btnOK", JValue.jstr "OK")]).isSome = true ∧
    (List.lookup "lblName" [("lblName", JValue.jstr "Name:"), ("txtName", JValue.jstr "Ada"),
        ("btnOK", JValue.jstr "OK")]).isSome = true :=
  ⟨rfl, rfl, rfl⟩

/-- C2 as amended: the extraction chain of `showUserForm` does not
exclude label or button controls — any control whose `Value` and `Text`
reads are undefined and whose `Caption` is present (the runtime shape of
labels and buttons) contributes the entry `name ↦ caption` to the
returned mapping. -/
theorem claim_C2_amended (st : VBProject) (fn : String) (comp : VBComponent)
    (pre post : List RtControl) (c : RtControl) (v : JValue)
    (hfind : findComponent st fn = some comp) (h3 : comp.ctype = 3)
    (hpre : ∀ d ∈ pre, readRaises d = false)
    (hval : c.value = .undef) (htext : c.text = .undef) (hcap : c.caption = .val v) :
    showUserForm fn st (pre ++ c :: post) =
      .ok (collectControls pre ++ (c.name, v) :: collectControls post) ∧
    (c.name, v) ∈ collectControls (pre ++ c :: post) := by
  have hentry := collect_entry_of_caption pre post c v hpre hval htext hcap
  constructor
  · rw [showUserForm, hfind]
    simp [h3, hentry]
  · rw [hentry]
    exact List.mem_append.mpr (Or.inr (List.mem_cons_self _ _))

/-- C2 witness: the amended theorem applied to a label between two
data controls. -/
theorem claim_C2_witness :
    showUserForm "FrmC2" ⟨[⟨"FrmC2", 3, "T", 400, 300, 1, [], ""⟩]⟩
        ([⟨"txtA", PropRead.val (JValue.jstr "a"), PropRead.undef, PropRead.undef⟩] ++
          ⟨"lblB", PropRead.undef, PropRead.undef, PropRead.val (JValue.jstr "B:")⟩ ::
            [⟨"txtC", PropRead.val (JValue.jstr "c"), PropRead.undef, PropRead.undef⟩]) =
      .ok (collectControls
          [⟨"txtA", PropRead.val (JValue.jstr "a"), PropRead.undef, PropRead.undef⟩] ++
        ("lblB", JValue.jstr "B:") :: collectControls
          [⟨"txtC", PropRead.val (JValue.jstr "c"), PropRead.undef, PropRead.undef⟩]) ∧
    ("lblB", JValue.jstr "B:") ∈ collectControls
      ([⟨"txtA", PropRead.val (JValue.jstr "a"), PropRead.undef, PropRead.undef⟩] ++
        ⟨"lblB", PropRead.undef, PropRead.undef, PropRead.val (JValue.jstr "B:")⟩ ::
          [⟨"txtC", PropRead.val (JValue.jstr "c"), PropRead.undef, PropRead.undef⟩]) :=
  claim_C2_amended ⟨[⟨"FrmC2", 3, "T", 400, 300, 1, [], ""⟩]⟩ "FrmC2"
    ⟨"FrmC2", 3, "T", 400, 300, 1, [], ""⟩
    [⟨"txtA", PropRead.val (JValue.jstr "a"), PropRead.undef, PropRead.undef⟩]
    [⟨"txtC", PropRead.val (JValue.jstr "c"), PropRead.undef, PropRead.undef⟩]
    ⟨"lblB", PropRead.undef, PropRead.undef, PropRead.val (JValue.jstr "B:")⟩
    (JValue.jstr "B:") rfl rfl (by decide) rfl rfl rfl

/-- C3 counterexample: when reading control `ctlB` raises, the mapping
returned by `showUserForm` contains only `ctlA` — `ctlC`, a control
other than the failing one, is missing, contrary to the claim that all
other controls still appear. -/
theorem claim_C3_counterexample :
    showUserForm "FrmZ" ⟨[⟨"FrmZ", 3, "T", 400, 300, 1, [], ""⟩]⟩
        [⟨"ctlA", PropRead.val (JValue.jstr "1"), PropRead.undef, PropRead.undef⟩,
         ⟨"ctlB", PropRead.raise, PropRead.undef, PropRead.undef⟩,
         ⟨"ctlC", PropRead.val (JValue.jstr "3"), PropRead.undef, PropRead.undef⟩] =
      .ok [("ctlA", JValue.jstr "1")] ∧
    List.lookup "ctlC" [("ctlA", JValue.jstr "1")] = none :=
  ⟨rfl, rfl⟩

/-- C3 as amended: if reading one control raises, the catch around the
whole extraction loop stops collection there — the call itself does not
raise, the mapping contains the entries of the controls before the
failing one, and the failing control together with every control after
it is omitted. -/
theorem claim_C3_amended (st : VBProject) (fn : String) (comp : VBComponent)
    (pre post : List RtControl) (bad : RtControl)
    (hfind : findComponent st fn = some comp) (h3 : comp.ctype = 3)
    (hpre : ∀ d ∈ pre, readRaises d = false) (hbad : readRaises bad = true) :
    showUserForm fn st (pre ++ bad :: post) = .ok (collectControls pre) := by
  rw [showUserForm, hfind]
  simp only [h3]
  rw [collect_append_of_no_raise pre (bad :: post) hpre, collect_cons_raise bad post hbad]
  simp

/-- C3 witness: the amended theorem applied to a raising middle
control. -/
theorem claim_C3_witness :
    showUserForm "FrmC3" ⟨[⟨"FrmC3", 3, "T", 400, 300, 1, [], ""⟩]⟩
        ([⟨"ctlA", PropRead.val (JValue.jstr "1"), PropRead.undef, PropRead.undef⟩] ++
          ⟨"ctlB", PropRead.raise, PropRead.undef, PropRead.undef⟩ ::
            [⟨"ctlC", PropRead.val (JValue.jstr "3"), PropRead.undef, PropRead.undef⟩]) =
      .ok (collectControls
        [⟨"ctlA", PropRead.val (JValue.jstr "1"), PropRead.undef, PropRead.undef⟩]) :=
  claim_C3_amended ⟨[⟨"FrmC3", 3, "T", 400, 300, 1, [], ""⟩]⟩ "FrmC3"
    ⟨"FrmC3", 3, "T", 400, 300, 1, [], ""⟩
    [⟨"ctlA", PropRead.val (JValue.jstr "1"), PropRead.undef, PropRead.undef⟩]
    [⟨"ctlC", PropRead.val (JValue.jstr "3"), PropRead.undef, PropRead.undef⟩]
    ⟨"ctlB", PropRead.raise, PropRead.undef, PropRead.undef⟩
    rfl rfl (by decide) rfl

/-- C9: the tool handlers are total with respect to service errors — any
error coming out of `showUserForm` or `createFormWithControls` is turned
into a `CallToolResult` with `isError` true and a non-empty textual
message, never propagated as an exception. -/
theorem claim_C9 (fn cap : String) (w h : Int) (ctrls : List CtrlSpec) (flag : Bool)
    (st st2 : VBProject) (rt : List RtControl) (e e2 : SpecError) :
    (showUserForm fn st rt = .error e →
      (showUserFormTool fn st rt).isError = true ∧
      (showUserFormTool fn st rt).contentTexts ≠ []) ∧
    ((createFormWithControls fn cap w h ctrls flag st2).1 = .error e2 →
      (createFormWithControlsTool fn cap w h ctrls flag st2).1.isError = true ∧
      (createFormWithControlsTool fn cap w h ctrls flag st2).1.contentTexts ≠ []) := by
  constructor
  · intro hE
    rw [showUserFormTool, hE]
    exact ⟨rfl, by simp⟩
  · intro hE
    cases hP : createFormWithControls fn cap w h ctrls flag st2 with
    | mk r s =>
      rw [hP] at hE
      rw [createFormWithControlsTool, hP]
      cases r with
      | ok u => exact absurd hE (by simp)
      | error err => exact ⟨rfl, by simp⟩

/-- C9 witness: a missing form makes `showUserForm` error and the tool
reports `isError`; an already-used form name makes
`createFormWithControls` error and its tool reports `isError`. -/
theorem claim_C9_witness :
    (showUserFormTool "F9" ⟨[]⟩ []).isError = true ∧
    (createFormWithControlsTool "F9" "C" 400 300 [] true
      ⟨[⟨"F9", 1, "", 0, 0, 0, [], ""⟩]⟩).1.isError = true :=
  ⟨((claim_C9 "F9" "C" 400 300 [] true ⟨[]⟩ ⟨[⟨"F9", 1, "", 0, 0, 0, [], ""⟩]⟩ []
      (showUserFormErr "F9" hostNoSuchComponent)
      (createFormErr "F9" (createUserFormErr "F9" hostDupComponentName).message)).1 rfl).1,
   ((claim_C9 "F9" "C" 400 300 [] true ⟨[]⟩ ⟨[⟨"F9", 1, "", 0, 0, 0, [], ""⟩]⟩ []
      (showUserFormErr "F9" hostNoSuchComponent)
      (createFormErr "F9" (createUserFormErr "F9" hostDupComponentName).message)).2 rfl).1⟩

/-- C10: the VBA helper-code injections are idempotent in the sense the
claim spells out — when the `UserFormHelper` module's code already
contains `Function ShowUserFormModal`, `createShowUserFormModalFunction`
returns successfully leaving the project unchanged, and when a form's
code module already contains `btnOK_Click`,
`addStandardFormEventHandlers` returns successfully leaving the project
unchanged. -/
theorem claim_C10 (st : VBProject) (helper : VBComponent) (fn : String) (form : VBComponent)
    (h1 : findComponent st "UserFormHelper" = some helper)
    (h2 : occurs "Function ShowUserFormModal" helper.code = true)
    (h3 : findComponent st fn = some form) (h4 : form.ctype = 3)
    (h5 : occurs "btnOK_Click" form.code = true) :
    createShowUserFormModalFunction st = (.ok (), st) ∧
    addStandardFormEventHandlers fn st = (.ok (), st) := by
  constructor
  · rw [createShowUserFormModalFunction, h1]
    simp [h2]
  · rw [addStandardFormEventHandlers, h3]
    simp [h4, h5]

/-- C10 witness: a project whose helper module and form code already
hold the markers is left unchanged by both injection operations. -/
theorem claim_C10_witness :
    createShowUserFormModalFunction
      ⟨[⟨"UserFormHelper", 1, "", 0, 0, 0, [],
          "Function ShowUserFormModal(formName As String) As String"⟩,
        ⟨"FrmH", 3, "", 400, 300, 1, [], "Private Sub btnOK_Click()"⟩]⟩ =
      (.ok (), ⟨[⟨"UserFormHelper", 1, "", 0, 0, 0, [],
          "Function ShowUserFormModal(formName As String) As String"⟩,
        ⟨"FrmH", 3, "", 400, 300, 1, [], "Private Sub btnOK_Click()"⟩]⟩) ∧
    addStandardFormEventHandlers "FrmH"
      ⟨[⟨"UserFormHelper", 1, "", 0, 0, 0, [],
          "Function ShowUserFormModal(formName As String) As String"⟩,
        ⟨"FrmH", 3, "", 400, 300, 1, [], "Private Sub btnOK_Click()"⟩]⟩ =
      (.ok (), ⟨[⟨"UserFormHelper", 1, "", 0, 0, 0, [],
          "Function ShowUserFormModal(formName As String) As String"⟩,
        ⟨"FrmH", 3, "", 400, 300, 1, [], "Private Sub btnOK_Click()"⟩]⟩) :=
  claim_C10
    ⟨[⟨"UserFormHelper", 1, "", 0, 0, 0, [],
        "Function ShowUserFormModal(formName As String) As String"⟩,
      ⟨"FrmH", 3, "", 400, 300, 1, [], "Private Sub btnOK_Click()"⟩]⟩
    ⟨"UserFormHelper", 1, "", 0, 0, 0, [],
      "Function ShowUserFormModal(formName As String) As String"⟩
    "FrmH"
    ⟨"FrmH", 3, "", 400, 300, 1, [], "Private Sub btnOK_Click()"⟩
    rfl (by decide) rfl rfl (by decide)
